import Mathlib

/-!
# Blog CRUD service: request handlers

A shallow embedding of `Controller/blogController.js` and of the error
middleware of `server.js`.  A handler is a function from the request and the
observable world (connection pool state, the statements sent to the pool, the
HTTP response under construction, the calls made to `next`, the console) to a
settled promise (fulfilled or rejected) and the world it leaves behind.

`pool` comes from `../Config/database`, which is outside the translated files:
the handlers take its `query` as a parameter.
-/

namespace Blog

/-! ## JavaScript values -/

/-- JavaScript values as the handlers meet them: parsed JSON bodies, route
parameters, values resolved or rejected by the pool.  Numbers are the
integer-valued ones; every other finite number is truthy like a non-zero
integer and is not told apart here. -/
inductive JsVal where
  | undefined
  | null
  | bool (b : Bool)
  | num (n : Int)
  | str (s : String)
  | arr (items : List JsVal)
  | obj (fields : List (String × JsVal))

instance : Inhabited JsVal := ⟨JsVal.undefined⟩

/-- ToBoolean: what `if (v)` and `v && w` test. -/
def truthy : JsVal → Bool
  | .undefined => false
  | .null => false
  | .bool b => b
  | .num n => n != 0
  | .str s => s != ""
  | .arr _ => true
  | .obj _ => true

/-- The test `v === "lit"` against a string literal. -/
def strictEqStr : JsVal → String → Bool
  | .str s, lit => s == lit
  | _, _ => false

/-- The test `v === n` against a number literal. -/
def strictEqNum : JsVal → Int → Bool
  | .num m, n => m == n
  | _, _ => false

/-- An `Error` object of the given class, as thrown by the runtime. -/
def jsError (name message : String) : JsVal :=
  .obj [("name", .str name), ("message", .str message)]

/-- Thrown when a property of `undefined` or `null` is read. -/
def typeError (key : String) : JsVal :=
  jsError "TypeError" ("Cannot read properties of undefined or null (reading " ++ key ++ ")")

/-- Thrown when an identifier that is bound nowhere in scope is evaluated. -/
def referenceError (ident : String) : JsVal :=
  jsError "ReferenceError" (ident ++ " is not defined")

/-- First binding of a key in an object literal or parsed object. -/
def lookupField : List (String × JsVal) → String → JsVal
  | [], _ => .undefined
  | (k, v) :: rest, key => if k == key then v else lookupField rest key

/-- Length of a string in UTF-16 code units, which is what `.length` reports. -/
def utf16Length (s : String) : Nat :=
  s.data.foldl (fun n c => n + (if c.val ≥ 0x10000 then 2 else 1)) 0

/-- Property read `v.key` for an identifier key (`title`, `id`, `length`, ...):
throws on `undefined` and `null`, `undefined` for an absent property. -/
def getProp (v : JsVal) (key : String) : Except JsVal JsVal :=
  match v with
  | .undefined => .error (typeError key)
  | .null => .error (typeError key)
  | .obj fields => .ok (lookupField fields key)
  | .arr items => .ok (if key == "length" then .num items.length else .undefined)
  | .str s => .ok (if key == "length" then .num (utf16Length s) else .undefined)
  | .bool _ => .ok .undefined
  | .num _ => .ok .undefined

/-- Optional chaining `v?.key`: `undefined` instead of a throw on a nullish `v`. -/
def getPropOpt (v : JsVal) (key : String) : JsVal :=
  match v with
  | .undefined => .undefined
  | .null => .undefined
  | .obj fields => lookupField fields key
  | .arr items => if key == "length" then .num items.length else .undefined
  | .str s => if key == "length" then .num (utf16Length s) else .undefined
  | .bool _ => .undefined
  | .num _ => .undefined

/-- Element read `v[i]` for a literal index.  On a string the element is the
`i`-th character (exact when the string has no character outside the basic
plane). -/
def getIndex (v : JsVal) (i : Nat) : Except JsVal JsVal :=
  match v with
  | .undefined => .error (typeError (toString i))
  | .null => .error (typeError (toString i))
  | .arr items => .ok (items.getD i .undefined)
  | .obj fields => .ok (lookupField fields (toString i))
  | .str s => .ok (match s.data.get? i with
      | some c => .str (String.singleton c)
      | none => .undefined)
  | .bool _ => .ok .undefined
  | .num _ => .ok .undefined

/-! ## The world a handler acts on -/

/-- The response object: `statusCode` starts at 200, `body` is what has been
sent (`none` while the request is unanswered). -/
structure Res where
  statusCode : Nat
  body : Option JsVal

/-- A fresh response, as the framework hands it to a handler. -/
def Res.fresh : Res := ⟨200, none⟩

/-- The request: route parameters and parsed body. -/
structure Req where
  params : JsVal
  body : JsVal

/-- Everything a handler can touch.  `db` is the state behind the pool,
`queries` the statements sent to `pool.query` in order, `nextCalls` the
argument lists `next` was called with, `console` the logged values. -/
structure World (σ : Type) where
  db : σ
  queries : List (String × List JsVal)
  res : Res
  nextCalls : List (List JsVal)
  console : List JsVal

/-- The world at the start of a request. -/
def World.start {σ : Type} (db : σ) : World σ := ⟨db, [], Res.fresh, [], []⟩

/-- How a computation ends: with a value, or with a thrown value.  For an
`async` handler these are the fulfilled and the rejected promise. -/
inductive Completion (α : Type) where
  | value (a : α)
  | thrown (e : JsVal)

/-- `pool.query(sql, values)` as a parameter: on a database state it resolves
with a value or rejects with an error, and leaves a database state. -/
abbrev Query (σ : Type) := String → List JsVal → σ → Except JsVal JsVal × σ

/-- Computations over the world that may throw. -/
def Js (σ α : Type) : Type := World σ → Completion α × World σ

namespace Js

variable {σ α β : Type}

/-- Finish with a value. -/
def ret (a : α) : Js σ α := fun w => (.value a, w)

/-- The statement `throw e`. -/
def throw (e : JsVal) : Js σ α := fun w => (.thrown e, w)

/-- Sequencing: a throw skips the rest. -/
def bind (m : Js σ α) (f : α → Js σ β) : Js σ β := fun w =>
  match m w with
  | (.value a, w1) => f a w1
  | (.thrown e, w1) => (.thrown e, w1)

/-- The statement `try { body } catch (error) { handler }`. -/
def tryCatch (body : Js σ α) (handler : JsVal → Js σ α) : Js σ α := fun w =>
  match body w with
  | (.value a, w1) => (.value a, w1)
  | (.thrown e, w1) => handler e w1

/-- Lift a pure evaluation that may throw. -/
def liftExcept (x : Except JsVal α) : Js σ α :=
  match x with
  | .ok a => ret a
  | .error e => throw e

end Js

instance {σ : Type} : Monad (Js σ) where
  pure := Js.ret
  bind := Js.bind

/-- The call `await pool.query(sql, values)`: records the statement, runs
it on the database state, throws when the promise rejects. -/
def poolQuery {σ : Type} (query : Query σ) (sql : String) (values : List JsVal) : Js σ JsVal :=
  fun w =>
    let w1 : World σ := ⟨(query sql values w.db).2, w.queries ++ [(sql, values)], w.res,
      w.nextCalls, w.console⟩
    match (query sql values w.db).1 with
    | .ok r => (.value r, w1)
    | .error e => (.thrown e, w1)

/-- The call `res.status(code)`. -/
def resStatus {σ : Type} (code : Nat) : Js σ Unit := fun w =>
  (.value (), ⟨w.db, w.queries, ⟨code, w.res.body⟩, w.nextCalls, w.console⟩)

/-- The calls `res.json(body)` and `res.send(body)`: send the body with the
status code set so far. -/
def resSend {σ : Type} (body : JsVal) : Js σ Unit := fun w =>
  (.value (), ⟨w.db, w.queries, ⟨w.res.statusCode, some body⟩, w.nextCalls, w.console⟩)

/-- A call `next(args...)` in a handler that has `next` as a parameter. -/
def callNext {σ : Type} (args : List JsVal) : Js σ Unit := fun w =>
  (.value (), ⟨w.db, w.queries, w.res, w.nextCalls ++ [args], w.console⟩)

/-- The calls `console.log(v)` and `console.error(v)`. -/
def consoleLog {σ : Type} (v : JsVal) : Js σ Unit := fun w =>
  (.value (), ⟨w.db, w.queries, w.res, w.nextCalls, w.console ++ [v]⟩)

/-- Evaluation of an identifier that no enclosing scope binds. -/
def unboundIdent {σ α : Type} (ident : String) : Js σ α :=
  Js.throw (referenceError ident)

/-! ## Controller/blogController.js -/

/-- Handler `createBlog = async (req, res) => ...`.  Its parameter list has
no `next`, and the module binds none: the `next(error)` of its catch block
evaluates an unbound identifier. -/
def createBlog {σ : Type} (query : Query σ) (req : Req) : Js σ Unit := do
  let title ← Js.liftExcept (getProp req.body "title")
  let content ← Js.liftExcept (getProp req.body "content")
  if truthy title && truthy content then
    Js.tryCatch
      (do
        let sql := "INSERT INTO blog (title, content) VALUES(?, ?)"
        let values := [title, content]
        let result ← poolQuery query sql values
        resStatus 201
        let first ← Js.liftExcept (getIndex result 0)
        resSend (.obj [("success", .bool true), ("blogId", getPropOpt first "insertId")]))
      (fun _error => unboundIdent "next")
  else do
    resStatus 400
    resSend (.obj [("message", .str "Title or content not found")])

/-- Handler `getBlogs = async (req, res, next) => ...`. -/
def getBlogs {σ : Type} (query : Query σ) (_req : Req) : Js σ Unit :=
  Js.tryCatch
    (do
      let sql := "SELECT * FROM blog"
      let blogs ← poolQuery query sql []
      resStatus 200
      let first ← Js.liftExcept (getIndex blogs 0)
      resSend (.obj [("success", .bool true), ("data", first)]))
    (fun error => callNext [error])

/-- Handler `getBlogById = async (req, res) => ...`.  As in `createBlog`,
`next` is not a parameter: the catch block evaluates the callee `next` before
any argument and throws there. -/
def getBlogById {σ : Type} (query : Query σ) (req : Req) : Js σ Unit := do
  let blogId ← Js.liftExcept (getProp req.params "id")
  consoleLog blogId
  if truthy blogId then
    Js.tryCatch
      (do
        let result ← poolQuery query "SELECT * From blog\n          WHERE id = ?;" [blogId]
        let first ← Js.liftExcept (getIndex result 0)
        let len ← Js.liftExcept (getProp first "length")
        if strictEqNum len 0 then do
          resStatus 404
          resSend (.obj [("message", .str "Blog Not Found")])
        else
          resSend (.obj [("success", .bool true), ("data", first)]))
      (fun _error => unboundIdent "next")
  else do
    resStatus 400
    resSend (.obj [("message", .str "Id No Found \n blogController.js line:71")])

/-- Handler `updateBlogById = async (req, res, next) => ...`. -/
def updateBlogById {σ : Type} (query : Query σ) (req : Req) : Js σ Unit := do
  let blogId ← Js.liftExcept (getProp req.params "id")
  let title ← Js.liftExcept (getProp req.body "title")
  let content ← Js.liftExcept (getProp req.body "content")
  if truthy title && truthy content && truthy blogId then
    Js.tryCatch
      (do
        let sql := "UPDATE blog SET title = ?, content = ? WHERE id = ?"
        let values := [title, content, blogId]
        let result ← poolQuery query sql values
        resStatus 200
        let first ← Js.liftExcept (getIndex result 0)
        resSend (.obj [("success", .bool true), ("info", first)]))
      (fun error => callNext [error])
  else do
    resStatus 400
    resSend (.obj [("message", .str "Title, content or blog id not found")])

/-- Handler `deleteBlogById = async (req, res, next) => ...`. -/
def deleteBlogById {σ : Type} (query : Query σ) (req : Req) : Js σ Unit := do
  let blogId ← Js.liftExcept (getProp req.params "id")
  if truthy blogId then
    Js.tryCatch
      (do
        let sql := "DELETE FROM blog WHERE id = ?"
        let values := [blogId]
        let result ← poolQuery query sql values
        resStatus 200
        resSend (.obj [("success", .bool true), ("result", result)]))
      (fun error => callNext [error])
  else do
    resStatus 400
    resSend (.obj [("message", .str "Blog id not found")])

/-- Handler `updateThumbsUp = async (req, res) => ...`. -/
def updateThumbsUp {σ : Type} (query : Query σ) (req : Req) : Js σ Unit := do
  let blogId ← Js.liftExcept (getProp req.params "id")
  let action ← Js.liftExcept (getProp req.body "action")
  if strictEqStr action "UP" || strictEqStr action "DOWN" then
    Js.tryCatch
      (do
        let sql := "UPDATE blog SET thumbsup = thumbsup + ? WHERE id = ?"
        let value : Int := if strictEqStr action "UP" then 1 else -1
        let values := [.num value, blogId]
        let result ← poolQuery query sql values
        resStatus 200
        resSend (.obj [("message", .str "thumbsup updated successfully"), ("result", result)]))
      (fun error => do
        resStatus 500
        let message ← Js.liftExcept (getProp error "message")
        resSend (.obj [("message", message)]))
  else do
    resStatus 400
    resSend (.obj [("message", .str "Invalid action")])

/-! ## The table behind the pool -/

/-- Modelled from the spec: the pool and the database it talks to are outside
the translated files.  One row of the `blog` table, with the columns of the
spec's persisted state: `id` (auto-increment primary key), `title`, `content`,
`thumbsup` (an integer counter that may go negative). -/
structure BlogPost where
  id : Nat
  title : JsVal
  content : JsVal
  thumbsup : Int

/-- Modelled from the spec: the persisted state is the table, in storage
order, and the identifier the next created row gets. -/
structure Store where
  rows : List BlogPost
  nextId : Nat

/-- Modelled from the spec: a row as a query reports it. -/
def BlogPost.toJs (r : BlogPost) : JsVal :=
  .obj [("id", .num r.id), ("title", r.title), ("content", r.content),
    ("thumbsup", .num r.thumbsup)]

/-- Modelled from the spec: the result descriptor of a write, with its
affected-row count and the identifier assigned by an insert (0 otherwise). -/
def resultHeader (affectedRows insertId : Nat) : JsVal :=
  .arr [.obj [("affectedRows", .num affectedRows), ("insertId", .num insertId)], .undefined]

/-- The number a non-empty string of decimal digits spells. -/
def decimalValue (s : String) : Option Nat :=
  if s.data.isEmpty then none
  else s.data.foldl (fun acc c =>
    match acc with
    | none => none
    | some n => if c.isDigit then some (10 * n + (c.toNat - 48)) else none) (some 0)

/-- Modelled from the spec: a comparison `id = ?` that accepts the number
itself or its decimal spelling. -/
def decimalIdMatch (param : JsVal) (id : Nat) : Bool :=
  match param with
  | .num n => n == id
  | .str s => decimalValue s == some id
  | _ => false

/-- Modelled from the spec: what `pool.query` does on the table for each of
the six statements the handlers send; any other statement is rejected.  The
comparison `id = ?` of the database is the parameter `idMatch`.  An insert
sets `thumbsup` to its default 0; the vote statement adds its first parameter
to `thumbsup` in one step, without any clamp. -/
def storeQuery (idMatch : JsVal → Nat → Bool) : Query Store := fun sql values s =>
  match sql, values with
  | "INSERT INTO blog (title, content) VALUES(?, ?)", [title, content] =>
    (.ok (resultHeader 1 s.nextId),
      ⟨s.rows ++ [⟨s.nextId, title, content, 0⟩], s.nextId + 1⟩)
  | "SELECT * FROM blog", [] =>
    (.ok (.arr [.arr (s.rows.map BlogPost.toJs), .undefined]), s)
  | "SELECT * From blog\n          WHERE id = ?;", [x] =>
    (.ok (.arr [.arr ((s.rows.filter (fun r => idMatch x r.id)).map BlogPost.toJs), .undefined]), s)
  | "UPDATE blog SET title = ?, content = ? WHERE id = ?", [title, content, x] =>
    (.ok (resultHeader (s.rows.filter (fun r => idMatch x r.id)).length 0),
      ⟨s.rows.map (fun r => if idMatch x r.id then ⟨r.id, title, content, r.thumbsup⟩ else r),
        s.nextId⟩)
  | "DELETE FROM blog WHERE id = ?", [x] =>
    (.ok (resultHeader (s.rows.filter (fun r => idMatch x r.id)).length 0),
      ⟨s.rows.filter (fun r => !idMatch x r.id), s.nextId⟩)
  | "UPDATE blog SET thumbsup = thumbsup + ? WHERE id = ?", [.num delta, x] =>
    (.ok (resultHeader (s.rows.filter (fun r => idMatch x r.id)).length 0),
      ⟨s.rows.map (fun r => if idMatch x r.id then ⟨r.id, r.title, r.content, r.thumbsup + delta⟩
        else r), s.nextId⟩)
  | _, _ => (.error (jsError "Error" "statement not supported"), s)

/-! ## server.js -/

/-- The error middleware `app.use((err, req, res, next) => ...)`, which the
framework runs when a handler calls `next(err)`. -/
def errorMiddleware {σ : Type} (err : JsVal) : Js σ Unit := do
  consoleLog err
  resStatus 500
  resSend (.str "Oops! Something broke!")

/-! ## Pools used at concrete inputs -/

/-- A pool whose every statement is rejected with the given error. -/
def failingQuery (e : JsVal) : Query Unit := fun _ _ s => (.error e, s)

/-- A pool whose every statement resolves with the given value. -/
def resolvingQuery (r : JsVal) : Query Unit := fun _ _ s => (.ok r, s)

/-! ## Lemmas on values -/

theorem truthy_of_missing_or_empty (v : JsVal) (h : v = .undefined ∨ v = .str "") :
    truthy v = false := by
  rcases h with h | h <;> subst h <;> rfl

theorem truthy_str (s : String) (h : s ≠ "") : truthy (.str s) = true := by
  simp [truthy, h]

theorem strictEqStr_iff (v : JsVal) (lit : String) :
    strictEqStr v lit = true ↔ v = .str lit := by
  cases v <;> simp [strictEqStr]

/-! ## createBlog -/

/-- C1, evaluated where it fails.  Body `{title: "A", content: "B"}`, the
pool rejects the INSERT with an error `e`.  `createBlog` never calls `next`:
its promise rejects with the ReferenceError of the unbound identifier `next`,
and the response is left unanswered with its status still 200.  On the same
failure the sibling `getBlogs`, which does take `next`, calls `next(e)`, and
the error middleware, once run on `e`, answers 500. -/
theorem createBlog_storage_failure_unbound_next :
    (createBlog (failingQuery (jsError "Error" "connect ECONNREFUSED"))
        ⟨.obj [], .obj [("title", .str "A"), ("content", .str "B")]⟩ (World.start ())).1
        = .thrown (referenceError "next") ∧
      (createBlog (failingQuery (jsError "Error" "connect ECONNREFUSED"))
        ⟨.obj [], .obj [("title", .str "A"), ("content", .str "B")]⟩ (World.start ())).2.nextCalls
        = [] ∧
      (createBlog (failingQuery (jsError "Error" "connect ECONNREFUSED"))
        ⟨.obj [], .obj [("title", .str "A"), ("content", .str "B")]⟩ (World.start ())).2.res.body
        = none ∧
      (createBlog (failingQuery (jsError "Error" "connect ECONNREFUSED"))
        ⟨.obj [], .obj [("title", .str "A"), ("content", .str "B")]⟩
        (World.start ())).2.res.statusCode = 200 ∧
      (createBlog (failingQuery (jsError "Error" "connect ECONNREFUSED"))
        ⟨.obj [], .obj [("title", .str "A"), ("content", .str "B")]⟩ (World.start ())).2.queries
        = [("INSERT INTO blog (title, content) VALUES(?, ?)", [.str "A", .str "B"])] ∧
      (getBlogs (failingQuery (jsError "Error" "connect ECONNREFUSED"))
        ⟨.obj [], .obj [("title", .str "A"), ("content", .str "B")]⟩ (World.start ())).2.nextCalls
        = [[jsError "Error" "connect ECONNREFUSED"]] ∧
      (errorMiddleware (jsError "Error" "connect ECONNREFUSED")
        (World.start ())).2.res.statusCode = 500 :=
  ⟨rfl, rfl, rfl, rfl, rfl, rfl, rfl⟩

/-- C3.  When the body lacks `title` or `content`, or has either one empty,
`createBlog` answers 400 with its message, sends no statement to the pool and
leaves the database state as it was. -/
theorem createBlog_missing_or_empty_field {σ : Type} (query : Query σ) (params : JsVal)
    (fields : List (String × JsVal)) (w : World σ)
    (h : (lookupField fields "title" = .undefined ∨ lookupField fields "title" = .str "") ∨
      (lookupField fields "content" = .undefined ∨ lookupField fields "content" = .str "")) :
    (createBlog query ⟨params, .obj fields⟩ w).2.res.statusCode = 400 ∧
      (createBlog query ⟨params, .obj fields⟩ w).2.res.body
        = some (.obj [("message", .str "Title or content not found")]) ∧
      (createBlog query ⟨params, .obj fields⟩ w).2.queries = w.queries ∧
      (createBlog query ⟨params, .obj fields⟩ w).2.db = w.db := by
  have hc : (truthy (lookupField fields "title") && truthy (lookupField fields "content"))
      = false := by
    rcases h with h | h
    · rw [truthy_of_missing_or_empty _ h]; rfl
    · rw [truthy_of_missing_or_empty _ h]; simp
  simp [createBlog, getProp, Js.liftExcept, bind, Js.bind, Js.ret, hc, resStatus, resSend]

/-- Witness of C3: a body with a title and no content. -/
theorem createBlog_missing_or_empty_field_witness :
    lookupField [("title", .str "A")] "content" = .undefined ∧
      (createBlog (resolvingQuery .null) ⟨.obj [], .obj [("title", .str "A")]⟩
        (World.start ())).2.res.statusCode = 400 ∧
      (createBlog (resolvingQuery .null) ⟨.obj [], .obj [("title", .str "A")]⟩
        (World.start ())).2.queries = [] :=
  have h := createBlog_missing_or_empty_field (resolvingQuery .null) (.obj [])
    [("title", .str "A")] (World.start ()) (Or.inr (Or.inl rfl))
  ⟨rfl, h.1, h.2.2.1⟩

/-- C4.  With a non-empty `title` and a non-empty `content`, when the pool
resolves the statement with a result whose first element is the header
`header`, `createBlog` has sent exactly one statement, the INSERT with
parameters `[title, content]`, and answers 201 with
`{success: true, blogId: header.insertId}`. -/
theorem createBlog_success {σ : Type} (query : Query σ) (params : JsVal)
    (fields : List (String × JsVal)) (w : World σ) (t c : String)
    (header : List (String × JsVal)) (rest : List JsVal)
    (ht : lookupField fields "title" = .str t) (hc : lookupField fields "content" = .str c)
    (htne : t ≠ "") (hcne : c ≠ "")
    (hq : (query "INSERT INTO blog (title, content) VALUES(?, ?)" [.str t, .str c] w.db).1
      = .ok (.arr (.obj header :: rest))) :
    (createBlog query ⟨params, .obj fields⟩ w).2.queries
        = w.queries ++ [("INSERT INTO blog (title, content) VALUES(?, ?)", [.str t, .str c])] ∧
      (createBlog query ⟨params, .obj fields⟩ w).2.res.statusCode = 201 ∧
      (createBlog query ⟨params, .obj fields⟩ w).2.res.body
        = some (.obj [("success", .bool true), ("blogId", lookupField header "insertId")]) := by
  simp [createBlog, getProp, getIndex, getPropOpt, Js.liftExcept, bind, Js.bind, Js.ret,
    Js.tryCatch, poolQuery, resStatus, resSend, ht, hc, truthy_str, htne, hcne, hq]

/-- Witness of C4: the spec's example, `{title: "A", content: "B"}` on an
empty table whose next identifier is 1, answered with `blogId: 1`. -/
theorem createBlog_success_witness :
    (createBlog (storeQuery decimalIdMatch)
        ⟨.obj [], .obj [("title", .str "A"), ("content", .str "B")]⟩
        (World.start ⟨[], 1⟩)).2.res.statusCode = 201 ∧
      (createBlog (storeQuery decimalIdMatch)
        ⟨.obj [], .obj [("title", .str "A"), ("content", .str "B")]⟩
        (World.start ⟨[], 1⟩)).2.res.body
        = some (.obj [("success", .bool true), ("blogId", .num 1)]) :=
  have h := createBlog_success (storeQuery decimalIdMatch) (.obj [])
    [("title", .str "A"), ("content", .str "B")] (World.start ⟨[], 1⟩) "A" "B"
    [("affectedRows", .num 1), ("insertId", .num 1)] [.undefined] rfl rfl (by decide)
    (by decide) rfl
  ⟨h.2.1, h.2.2⟩

/-! ## getBlogById -/

/-- C2 as stated fails.  Route parameter `id = "1"`, the pool rejects the
SELECT: the handler has not answered with a 500 response carrying a message. -/
theorem getBlogById_storage_failure_no_direct_500 :
    ¬ ((getBlogById (failingQuery (jsError "Error" "connect ECONNREFUSED"))
          ⟨.obj [("id", .str "1")], .obj []⟩ (World.start ())).2.res.statusCode = 500 ∧
        ∃ body, (getBlogById (failingQuery (jsError "Error" "connect ECONNREFUSED"))
          ⟨.obj [("id", .str "1")], .obj []⟩ (World.start ())).2.res.body = some body) := by
  rintro ⟨h, -⟩
  exact absurd h (by decide)

/-- C2, amended.  With a non-empty `id`, when the pool rejects the SELECT,
`getBlogById` does not answer the request itself: it sets no status and sends
no body, so the response is as the handler received it. -/
theorem getBlogById_storage_failure_leaves_response {σ : Type} (query : Query σ)
    (pfields : List (String × JsVal)) (body : JsVal) (w : World σ) (i : String) (e : JsVal)
    (hi : lookupField pfields "id" = .str i) (hine : i ≠ "")
    (hq : (query "SELECT * From blog\n          WHERE id = ?;" [.str i] w.db).1 = .error e) :
    (getBlogById query ⟨.obj pfields, body⟩ w).2.res = w.res := by
  simp [getBlogById, getProp, Js.liftExcept, bind, Js.bind, Js.ret, Js.tryCatch, Js.throw,
    poolQuery, consoleLog, unboundIdent, hi, truthy_str, hine, hq]

/-- Witness of amended C2: `id = "1"` and a pool that rejects. -/
theorem getBlogById_storage_failure_leaves_response_witness :
    (getBlogById (failingQuery (.str "down")) ⟨.obj [("id", .str "1")], .obj []⟩
      (World.start ())).2.res = Res.fresh :=
  getBlogById_storage_failure_leaves_response (failingQuery (.str "down"))
    [("id", .str "1")] (.obj []) (World.start ()) "1" (.str "down") rfl (by decide) rfl

/-- C5.  With a non-empty `id`, when the pool resolves the SELECT with the
row list `rows`, the status is 404 exactly when `rows` is empty; on an empty
`rows` the 404 response is sent with the body `{message: "Blog Not Found"}`;
on a non-empty `rows` the status is 200 and the body sent is
`{success: true, data: rows}`. -/
theorem getBlogById_found_or_not_found {σ : Type} (query : Query σ)
    (pfields : List (String × JsVal)) (body : JsVal) (db : σ) (i : String)
    (rows rest : List JsVal)
    (hi : lookupField pfields "id" = .str i) (hine : i ≠ "")
    (hq : (query "SELECT * From blog\n          WHERE id = ?;" [.str i] db).1
      = .ok (.arr (.arr rows :: rest))) :
    ((getBlogById query ⟨.obj pfields, body⟩ (World.start db)).2.res.statusCode = 404
        ↔ rows = []) ∧
      (rows = [] →
        (getBlogById query ⟨.obj pfields, body⟩ (World.start db)).2.res.body
          = some (.obj [("message", .str "Blog Not Found")])) ∧
      (rows ≠ [] →
        (getBlogById query ⟨.obj pfields, body⟩ (World.start db)).2.res.statusCode = 200 ∧
        (getBlogById query ⟨.obj pfields, body⟩ (World.start db)).2.res.body
          = some (.obj [("success", .bool true), ("data", .arr rows)])) := by
  cases rows with
  | nil =>
    simp [getBlogById, getProp, getIndex, Js.liftExcept, bind, Js.bind, Js.ret, Js.tryCatch,
      poolQuery, consoleLog, resStatus, resSend, World.start, hi, truthy_str, hine, hq,
      strictEqNum]
  | cons r rs =>
    have hlen : strictEqNum (.num ((rs.length : Int) + 1)) 0 = false := by
      simp [strictEqNum]; omega
    simp [getBlogById, getProp, getIndex, Js.liftExcept, bind, Js.bind, Js.ret, Js.tryCatch,
      poolQuery, consoleLog, resStatus, resSend, World.start, Res.fresh, hi, truthy_str, hine,
      hq, hlen]

/-- Witness of C5: the spec's example row, found under `id = "1"`, and
`id = "9"`, which matches no row of the same table. -/
theorem getBlogById_found_or_not_found_witness :
    ((getBlogById (storeQuery decimalIdMatch) ⟨.obj [("id", .str "1")], .obj []⟩
        (World.start ⟨[⟨1, .str "A", .str "B", 0⟩], 2⟩)).2.res.statusCode = 200 ∧
      (getBlogById (storeQuery decimalIdMatch) ⟨.obj [("id", .str "1")], .obj []⟩
        (World.start ⟨[⟨1, .str "A", .str "B", 0⟩], 2⟩)).2.res.body
        = some (.obj [("success", .bool true), ("data", .arr [.obj [("id", .num 1),
            ("title", .str "A"), ("content", .str "B"), ("thumbsup", .num 0)]])])) ∧
      ((getBlogById (storeQuery decimalIdMatch) ⟨.obj [("id", .str "9")], .obj []⟩
        (World.start ⟨[⟨1, .str "A", .str "B", 0⟩], 2⟩)).2.res.statusCode = 404 ∧
      (getBlogById (storeQuery decimalIdMatch) ⟨.obj [("id", .str "9")], .obj []⟩
        (World.start ⟨[⟨1, .str "A", .str "B", 0⟩], 2⟩)).2.res.body
        = some (.obj [("message", .str "Blog Not Found")])) :=
  have hfound := getBlogById_found_or_not_found (storeQuery decimalIdMatch)
    [("id", .str "1")] (.obj []) ⟨[⟨1, .str "A", .str "B", 0⟩], 2⟩ "1"
    [.obj [("id", .num 1), ("title", .str "A"), ("content", .str "B"), ("thumbsup", .num 0)]]
    [.undefined] rfl (by decide) rfl
  have hnone := getBlogById_found_or_not_found (storeQuery decimalIdMatch)
    [("id", .str "9")] (.obj []) ⟨[⟨1, .str "A", .str "B", 0⟩], 2⟩ "9" [] [.undefined]
    rfl (by decide) rfl
  ⟨hfound.2.2 (by simp), hnone.1.2 rfl, hnone.2.1 rfl⟩

/-! ## updateThumbsUp -/

/-- C6.  When the body's `action` is neither the string `"UP"` nor the string
`"DOWN"` (absent, another letter case, not a string), `updateThumbsUp` answers
400, sends no statement to the pool and leaves the database state as it was. -/
theorem updateThumbsUp_invalid_action {σ : Type} (query : Query σ)
    (pfields bfields : List (String × JsVal)) (w : World σ)
    (hup : lookupField bfields "action" ≠ .str "UP")
    (hdown : lookupField bfields "action" ≠ .str "DOWN") :
    (updateThumbsUp query ⟨.obj pfields, .obj bfields⟩ w).2.res.statusCode = 400 ∧
      (updateThumbsUp query ⟨.obj pfields, .obj bfields⟩ w).2.res.body
        = some (.obj [("message", .str "Invalid action")]) ∧
      (updateThumbsUp query ⟨.obj pfields, .obj bfields⟩ w).2.queries = w.queries ∧
      (updateThumbsUp query ⟨.obj pfields, .obj bfields⟩ w).2.db = w.db := by
  have h1 : strictEqStr (lookupField bfields "action") "UP" = false := by
    rw [Bool.eq_false_iff, Ne, strictEqStr_iff]; exact hup
  have h2 : strictEqStr (lookupField bfields "action") "DOWN" = false := by
    rw [Bool.eq_false_iff, Ne, strictEqStr_iff]; exact hdown
  simp [updateThumbsUp, getProp, Js.liftExcept, bind, Js.bind, Js.ret, h1, h2, resStatus,
    resSend]

/-- Witness of C6: the lower-case action `"up"`. -/
theorem updateThumbsUp_invalid_action_witness :
    (updateThumbsUp (resolvingQuery .null)
        ⟨.obj [("id", .str "1")], .obj [("action", .str "up")]⟩ (World.start ())).2.res.statusCode
        = 400 ∧
      (updateThumbsUp (resolvingQuery .null)
        ⟨.obj [("id", .str "1")], .obj [("action", .str "up")]⟩ (World.start ())).2.queries
        = [] :=
  have h := updateThumbsUp_invalid_action (resolvingQuery .null) [("id", .str "1")]
    [("action", .str "up")] (World.start ()) (by simp [lookupField]) (by simp [lookupField])
  ⟨h.1, h.2.2.1⟩

/-- C7.  With `action` `"UP"` or `"DOWN"` and route parameter `id = x`,
whatever the pool answers, `updateThumbsUp` sends exactly one statement:
`UPDATE blog SET thumbsup = thumbsup + ? WHERE id = ?` with parameters
`[delta, x]`, `delta` being 1 for `"UP"` and -1 for `"DOWN"`.  No read
precedes it. -/
theorem updateThumbsUp_single_statement {σ : Type} (query : Query σ)
    (pfields bfields : List (String × JsVal)) (w : World σ) (action : String)
    (ha : lookupField bfields "action" = .str action)
    (hv : action = "UP" ∨ action = "DOWN") :
    (updateThumbsUp query ⟨.obj pfields, .obj bfields⟩ w).2.queries
      = w.queries ++ [("UPDATE blog SET thumbsup = thumbsup + ? WHERE id = ?",
          [.num (if action = "UP" then 1 else -1), lookupField pfields "id"])] := by
  rcases hv with hv | hv <;> subst hv
  · cases hq : (query "UPDATE blog SET thumbsup = thumbsup + ? WHERE id = ?"
        [.num 1, lookupField pfields "id"] w.db).1 with
    | ok r =>
      simp [updateThumbsUp, getProp, Js.liftExcept, bind, Js.bind, Js.ret, Js.tryCatch,
        poolQuery, resStatus, resSend, ha, strictEqStr, hq]
    | error e =>
      cases e <;>
        simp [updateThumbsUp, getProp, Js.liftExcept, bind, Js.bind, Js.ret, Js.tryCatch,
          Js.throw, poolQuery, resStatus, resSend, ha, strictEqStr, hq]
  · cases hq : (query "UPDATE blog SET thumbsup = thumbsup + ? WHERE id = ?"
        [.num (-1), lookupField pfields "id"] w.db).1 with
    | ok r =>
      simp [updateThumbsUp, getProp, Js.liftExcept, bind, Js.bind, Js.ret, Js.tryCatch,
        poolQuery, resStatus, resSend, ha, strictEqStr, hq]
    | error e =>
      cases e <;>
        simp [updateThumbsUp, getProp, Js.liftExcept, bind, Js.bind, Js.ret, Js.tryCatch,
          Js.throw, poolQuery, resStatus, resSend, ha, strictEqStr, hq]

/-- Witness of C7: a `"DOWN"` vote on `id = "7"`, the pool rejecting. -/
theorem updateThumbsUp_single_statement_witness :
    (updateThumbsUp (failingQuery .null)
        ⟨.obj [("id", .str "7")], .obj [("action", .str "DOWN")]⟩ (World.start ())).2.queries
      = [("UPDATE blog SET thumbsup = thumbsup + ? WHERE id = ?", [.num (-1), .str "7"])] :=
  updateThumbsUp_single_statement (failingQuery .null) [("id", .str "7")]
    [("action", .str "DOWN")] (World.start ()) "DOWN" rfl (Or.inr rfl)

/-- The vote statement with `delta` and then with `-delta` gives the table back. -/
theorem vote_then_unvote_rows (q : Nat → Bool) (delta : Int) (rows : List BlogPost) :
    (rows.map (fun r => if q r.id = true then ⟨r.id, r.title, r.content, r.thumbsup + delta⟩
        else r)).map
      (fun r => if q r.id = true then ⟨r.id, r.title, r.content, r.thumbsup + -delta⟩ else r)
      = rows := by
  induction rows with
  | nil => rfl
  | cons r rs ih =>
    rw [List.map_cons, List.map_cons, ih]
    by_cases h : q r.id = true
    · cases r with
      | mk id title content thumbsup =>
        have h1 : q id = true := h
        simp [h1]
    · simp [h]

/-- C8.  On the table model, for every table, every comparison `id = ?` and
every route parameter `id = x`: an `"UP"` vote followed by a `"DOWN"` vote on
`x`, both answered 200, adds 1 to `thumbsup` of the rows `x` matches and then
gives back the table exactly as it was, so every `thumbsup` (zero and
negative ones too, nothing clamps) has its original value and every other row
and column is unchanged. -/
theorem updateThumbsUp_up_then_down_restores (idMatch : JsVal → Nat → Bool)
    (pfields upBody downBody : List (String × JsVal)) (s : Store)
    (hup : lookupField upBody "action" = .str "UP")
    (hdown : lookupField downBody "action" = .str "DOWN") :
    (updateThumbsUp (storeQuery idMatch) ⟨.obj pfields, .obj upBody⟩
        (World.start s)).2.res.statusCode = 200 ∧
      (updateThumbsUp (storeQuery idMatch) ⟨.obj pfields, .obj downBody⟩
        (World.start (updateThumbsUp (storeQuery idMatch) ⟨.obj pfields, .obj upBody⟩
          (World.start s)).2.db)).2.res.statusCode = 200 ∧
      (updateThumbsUp (storeQuery idMatch) ⟨.obj pfields, .obj upBody⟩
        (World.start s)).2.db.rows
        = s.rows.map (fun r =>
          if idMatch (lookupField pfields "id") r.id = true
          then ⟨r.id, r.title, r.content, r.thumbsup + 1⟩ else r) ∧
      (updateThumbsUp (storeQuery idMatch) ⟨.obj pfields, .obj downBody⟩
        (World.start (updateThumbsUp (storeQuery idMatch) ⟨.obj pfields, .obj upBody⟩
          (World.start s)).2.db)).2.db = s := by
  have hback := vote_then_unvote_rows (idMatch (lookupField pfields "id")) 1 s.rows
  simp [updateThumbsUp, getProp, Js.liftExcept, bind, Js.bind, Js.ret, Js.tryCatch,
    poolQuery, resStatus, resSend, World.start, storeQuery, strictEqStr, hup, hdown]
  rw [← List.map_map, hback]

/-- Witness of C8: votes on `id = "1"`, whose counter is negative, in a table
of two rows. -/
theorem updateThumbsUp_up_then_down_restores_witness :
    (updateThumbsUp (storeQuery decimalIdMatch)
        ⟨.obj [("id", .str "1")], .obj [("action", .str "UP")]⟩
        (World.start ⟨[⟨1, .str "A", .str "B", -3⟩, ⟨2, .str "C", .str "D", 0⟩], 3⟩)).2.db.rows
        = [⟨1, .str "A", .str "B", -2⟩, ⟨2, .str "C", .str "D", 0⟩] ∧
      (updateThumbsUp (storeQuery decimalIdMatch)
        ⟨.obj [("id", .str "1")], .obj [("action", .str "DOWN")]⟩
        (World.start (updateThumbsUp (storeQuery decimalIdMatch)
          ⟨.obj [("id", .str "1")], .obj [("action", .str "UP")]⟩
          (World.start ⟨[⟨1, .str "A", .str "B", -3⟩, ⟨2, .str "C", .str "D", 0⟩], 3⟩)).2.db)).2.db
        = ⟨[⟨1, .str "A", .str "B", -3⟩, ⟨2, .str "C", .str "D", 0⟩], 3⟩ :=
  have h := updateThumbsUp_up_then_down_restores decimalIdMatch [("id", .str "1")]
    [("action", .str "UP")] [("action", .str "DOWN")]
    ⟨[⟨1, .str "A", .str "B", -3⟩, ⟨2, .str "C", .str "D", 0⟩], 3⟩ rfl rfl
  ⟨h.2.2.1, h.2.2.2⟩

/-! ## updateBlogById and deleteBlogById -/

/-- C9 as stated fails.  Route `id = "1"`, body `{title: 0, content: "B"}`:
the title is present and is not the empty string, so the claim has the one
UPDATE sent; the handler answers 400 and sends no statement. -/
theorem updateBlogById_zero_title_refused :
    lookupField [("title", .num 0), ("content", .str "B")] "title" ≠ .undefined ∧
      lookupField [("title", .num 0), ("content", .str "B")] "title" ≠ .str "" ∧
      (updateBlogById (resolvingQuery (resultHeader 1 0))
        ⟨.obj [("id", .str "1")], .obj [("title", .num 0), ("content", .str "B")]⟩
        (World.start ())).2.res.statusCode = 400 ∧
      (updateBlogById (resolvingQuery (resultHeader 1 0))
        ⟨.obj [("id", .str "1")], .obj [("title", .num 0), ("content", .str "B")]⟩
        (World.start ())).2.queries = [] ∧
      ¬ (updateBlogById (resolvingQuery (resultHeader 1 0))
        ⟨.obj [("id", .str "1")], .obj [("title", .num 0), ("content", .str "B")]⟩
        (World.start ())).2.queries
        = [("UPDATE blog SET title = ?, content = ? WHERE id = ?",
            [.num 0, .str "B", .str "1"])] := by
  refine ⟨by simp [lookupField], by simp [lookupField], rfl, rfl, ?_⟩
  intro h
  have hq : (updateBlogById (resolvingQuery (resultHeader 1 0))
      ⟨.obj [("id", .str "1")], .obj [("title", .num 0), ("content", .str "B")]⟩
      (World.start ())).2.queries = [] := rfl
  rw [hq] at h
  exact List.noConfusion h

/-- C9, amended.  For every request to `updateBlogById`: when the route `id`,
the body `title` or the body `content` is falsy (absent, the empty string,
`null`, `false` or 0), the answer sent is 400 with the body
`{message: "Title, content or blog id not found"}`, no statement is sent and
the database state is as it was; when all three are truthy, exactly one
statement is sent, `UPDATE blog SET title = ?, content = ? WHERE id = ?` with
parameters `[title, content, id]`, and on the table model that statement
replaces `title` and `content` of the rows `id` matches, keeps their `id` and
`thumbsup`, and keeps every other row. -/
theorem updateBlogById_validation_and_statement {σ : Type} (query : Query σ)
    (pfields bfields : List (String × JsVal)) (w : World σ) :
    ((truthy (lookupField pfields "id") = false ∨
        truthy (lookupField bfields "title") = false ∨
        truthy (lookupField bfields "content") = false)
      → (updateBlogById query ⟨.obj pfields, .obj bfields⟩ w).2.res.statusCode = 400 ∧
        (updateBlogById query ⟨.obj pfields, .obj bfields⟩ w).2.res.body
          = some (.obj [("message", .str "Title, content or blog id not found")]) ∧
        (updateBlogById query ⟨.obj pfields, .obj bfields⟩ w).2.queries = w.queries ∧
        (updateBlogById query ⟨.obj pfields, .obj bfields⟩ w).2.db = w.db) ∧
      ((truthy (lookupField pfields "id") = true ∧
        truthy (lookupField bfields "title") = true ∧
        truthy (lookupField bfields "content") = true)
      → (updateBlogById query ⟨.obj pfields, .obj bfields⟩ w).2.queries
            = w.queries ++ [("UPDATE blog SET title = ?, content = ? WHERE id = ?",
                [lookupField bfields "title", lookupField bfields "content",
                  lookupField pfields "id"])] ∧
          ∀ (idMatch : JsVal → Nat → Bool) (s : Store),
            (updateBlogById (storeQuery idMatch) ⟨.obj pfields, .obj bfields⟩
                (World.start s)).2.db
              = ⟨s.rows.map (fun r => if idMatch (lookupField pfields "id") r.id = true
                  then ⟨r.id, lookupField bfields "title", lookupField bfields "content",
                    r.thumbsup⟩
                  else r), s.nextId⟩) := by
  constructor
  · intro h
    have hc : (truthy (lookupField bfields "title") && truthy (lookupField bfields "content")
        && truthy (lookupField pfields "id")) = false := by
      rcases h with h | h | h <;> rw [h] <;> simp
    simp [updateBlogById, getProp, Js.liftExcept, bind, Js.bind, Js.ret, hc, resStatus, resSend]
  · rintro ⟨hi, ht, hc⟩
    constructor
    · cases hq : (query "UPDATE blog SET title = ?, content = ? WHERE id = ?"
          [lookupField bfields "title", lookupField bfields "content",
            lookupField pfields "id"] w.db).1 with
      | ok r =>
        cases r <;>
          simp [updateBlogById, getProp, getIndex, Js.liftExcept, bind, Js.bind, Js.ret,
            Js.tryCatch, Js.throw, poolQuery, resStatus, resSend, callNext, ht, hc, hi, hq]
      | error e =>
        simp [updateBlogById, getProp, Js.liftExcept, bind, Js.bind, Js.ret, Js.tryCatch,
          poolQuery, callNext, ht, hc, hi, hq]
    · intro idMatch s
      simp [updateBlogById, getProp, getIndex, Js.liftExcept, bind, Js.bind, Js.ret,
        Js.tryCatch, poolQuery, resStatus, resSend, World.start, storeQuery, resultHeader,
        ht, hc, hi]

/-- Witness of amended C9: an empty title is refused with the 400 message; a
full request on `id = "1"` sends the one UPDATE. -/
theorem updateBlogById_validation_and_statement_witness :
    ((updateBlogById (resolvingQuery .null)
        ⟨.obj [("id", .str "1")], .obj [("title", .str ""), ("content", .str "B")]⟩
        (World.start ())).2.res.statusCode = 400 ∧
      (updateBlogById (resolvingQuery .null)
        ⟨.obj [("id", .str "1")], .obj [("title", .str ""), ("content", .str "B")]⟩
        (World.start ())).2.res.body
        = some (.obj [("message", .str "Title, content or blog id not found")])) ∧
      (updateBlogById (resolvingQuery (.arr []))
        ⟨.obj [("id", .str "1")], .obj [("title", .str "A"), ("content", .str "B")]⟩
        (World.start ())).2.queries
        = [("UPDATE blog SET title = ?, content = ? WHERE id = ?",
            [.str "A", .str "B", .str "1"])] :=
  have hrefused := (updateBlogById_validation_and_statement (resolvingQuery .null)
    [("id", .str "1")] [("title", .str ""), ("content", .str "B")] (World.start ())).1
    (Or.inr (Or.inl rfl))
  have hsent := (updateBlogById_validation_and_statement (resolvingQuery (.arr []))
    [("id", .str "1")] [("title", .str "A"), ("content", .str "B")] (World.start ())).2
    ⟨rfl, rfl, rfl⟩
  ⟨⟨hrefused.1, hrefused.2.1⟩, hsent.1⟩

/-- C10.  Neither `updateBlogById` nor `deleteBlogById` checks that the row
exists.  With every required input non-empty, whenever the pool resolves the
single statement, with whatever result (a zero affected-row count for an id
that matches no row included), the answer is 200, never 404, with
`success: true`; the update carries the first element of the result as
`info`, the delete carries the whole result as `result`. -/
theorem update_delete_no_existence_check {σ : Type} (query : Query σ)
    (pfields bfields : List (String × JsVal)) (w : World σ) (i : String)
    (hi : lookupField pfields "id" = .str i) (hine : i ≠ "") :
    (∀ (t c : String) (items : List JsVal), lookupField bfields "title" = .str t →
        lookupField bfields "content" = .str c → t ≠ "" → c ≠ "" →
        (query "UPDATE blog SET title = ?, content = ? WHERE id = ?"
          [.str t, .str c, .str i] w.db).1 = .ok (.arr items) →
        (updateBlogById query ⟨.obj pfields, .obj bfields⟩ w).2.res.statusCode = 200 ∧
        (updateBlogById query ⟨.obj pfields, .obj bfields⟩ w).2.res.body
          = some (.obj [("success", .bool true), ("info", items.getD 0 .undefined)])) ∧
      (∀ result : JsVal,
        (query "DELETE FROM blog WHERE id = ?" [.str i] w.db).1 = .ok result →
        (deleteBlogById query ⟨.obj pfields, .obj bfields⟩ w).2.res.statusCode = 200 ∧
        (deleteBlogById query ⟨.obj pfields, .obj bfields⟩ w).2.res.body
          = some (.obj [("success", .bool true), ("result", result)])) := by
  constructor
  · intro t c items ht hc htne hcne hq
    simp [updateBlogById, getProp, getIndex, Js.liftExcept, bind, Js.bind, Js.ret, Js.tryCatch,
      poolQuery, resStatus, resSend, ht, hc, hi, truthy_str, htne, hcne, hine, hq]
  · intro result hq
    simp [deleteBlogById, getProp, Js.liftExcept, bind, Js.bind, Js.ret, Js.tryCatch,
      poolQuery, resStatus, resSend, hi, truthy_str, hine, hq]

/-- Witness of C10: update and delete of `id = "9"` on a table that has no
such row; both are answered 200 with a zero affected-row count. -/
theorem update_delete_no_existence_check_witness :
    (updateBlogById (storeQuery decimalIdMatch)
        ⟨.obj [("id", .str "9")], .obj [("title", .str "A"), ("content", .str "B")]⟩
        (World.start ⟨[⟨1, .str "T", .str "C", 0⟩], 2⟩)).2.res.statusCode = 200 ∧
      (updateBlogById (storeQuery decimalIdMatch)
        ⟨.obj [("id", .str "9")], .obj [("title", .str "A"), ("content", .str "B")]⟩
        (World.start ⟨[⟨1, .str "T", .str "C", 0⟩], 2⟩)).2.res.body
        = some (.obj [("success", .bool true),
            ("info", .obj [("affectedRows", .num 0), ("insertId", .num 0)])]) ∧
      (deleteBlogById (storeQuery decimalIdMatch)
        ⟨.obj [("id", .str "9")], .obj [("title", .str "A"), ("content", .str "B")]⟩
        (World.start ⟨[⟨1, .str "T", .str "C", 0⟩], 2⟩)).2.res.statusCode = 200 :=
  have h := update_delete_no_existence_check (storeQuery decimalIdMatch) [("id", .str "9")]
    [("title", .str "A"), ("content", .str "B")] (World.start ⟨[⟨1, .str "T", .str "C", 0⟩], 2⟩)
    "9" rfl (by decide)
  have hu := h.1 "A" "B"
    [.obj [("affectedRows", .num 0), ("insertId", .num 0)], .undefined] rfl rfl (by decide)
    (by decide) rfl
  have hd := h.2 (resultHeader 0 0) rfl
  ⟨hu.1, hu.2, hd.1⟩

end Blog
